import Mathlib

/-!
Verification of the transformation-and-comparison core of the workout
analysis dashboard (`streamlit_app.py`).

The numeric domain of the Python code (floats) is embedded as `ℚ`; Python
`None`-or-value slots become `Option`; dictionaries with a fixed schema
become structures with `Option` fields.  Functions are translated
definition-by-definition from the source; the generic flattener, which is
not part of the source tree, is modelled from the specification text and
marked as such.
-/

namespace GdpDashboard

/-! ## Basic character and string helpers (models of Python primitives) -/

/-- Model of Python list/string prefix test: `leadsWith n h` is true when
`n` is a prefix of `h`. -/
def leadsWith : List Char → List Char → Bool
  | [], _ => true
  | _ :: _, [] => false
  | a :: as, b :: bs => a == b && leadsWith as bs

/-- Model of Python's substring containment `n in h` on character lists. -/
def containsSub : List Char → List Char → Bool
  | n, [] => n.isEmpty
  | n, c :: rest => leadsWith n (c :: rest) || containsSub n rest

/-- Model of Python's `str.lower()` restricted to ASCII names (all metric
names in the program are ASCII). -/
def lowerChars (s : String) : List Char :=
  s.data.map Char.toLower

/-- Model of Python's `str.replace('PT', '')`: deletes every non-overlapping
occurrence of `PT`, scanning left to right. -/
def stripPT : List Char → List Char
  | [] => []
  | c :: rest =>
    if c = 'P' then
      match rest with
      | 'T' :: rest2 => stripPT rest2
      | [] => [c]
      | c2 :: rest2 => c :: stripPT (c2 :: rest2)
    else c :: stripPT rest

/-- Model of Python's `str.replace('S', '')`: deletes every occurrence of `S`. -/
def stripS : List Char → List Char
  | [] => []
  | c :: rest => if c = 'S' then stripS rest else c :: stripS rest

/-- Numeric value of a decimal digit character, `none` for non-digits. -/
def digitVal (c : Char) : Option Nat :=
  if '0' ≤ c ∧ c ≤ '9' then some (c.toNat - 48) else none

/-- Nat value of a digit run (most significant first). -/
def digitsToNat (ds : List Char) : Nat :=
  ds.foldl (fun acc c => acc * 10 + (c.toNat - 48)) 0

/-- Longest leading run of decimal digits, and the rest. -/
def spanDigits (cs : List Char) : List Char × List Char :=
  (cs.takeWhile Char.isDigit, cs.dropWhile Char.isDigit)

/-- Model of Python's `float(str)` on the literal subset produced by this
program: optional surrounding whitespace, optional sign, a digit run with an
optional fractional part (at least one digit overall), and an optional
decimal exponent.  Inputs outside this subset (`inf`, `nan`, underscore
separators) do not occur in the repository's data and are rejected. -/
def parseFloatQ (cs0 : List Char) : Option ℚ :=
  let cs1 := cs0.dropWhile Char.isWhitespace
  let (sgn, cs2) : ℚ × List Char :=
    match cs1 with
    | '+' :: r => (1, r)
    | '-' :: r => (-1, r)
    | r => (1, r)
  let (ip, cs3) := spanDigits cs2
  let (fp, cs4) : List Char × List Char :=
    match cs3 with
    | '.' :: r => spanDigits r
    | r => ([], r)
  if ip.isEmpty && fp.isEmpty then none
  else
    let mantissa : ℚ := (digitsToNat ip : ℚ) + (digitsToNat fp : ℚ) / (10 : ℚ) ^ fp.length
    match cs4 with
    | [] => some (sgn * mantissa)
    | e :: r =>
      if e == 'e' || e == 'E' then
        let (esgn, r2) : ℤ × List Char :=
          match r with
          | '+' :: r2 => (1, r2)
          | '-' :: r2 => (-1, r2)
          | r2 => (1, r2)
        let (eds, r3) := spanDigits r2
        if eds.isEmpty then none
        else if (r3.dropWhile Char.isWhitespace).isEmpty then
          some (sgn * mantissa * (10 : ℚ) ^ (esgn * (digitsToNat eds : ℤ)))
        else none
      else if (cs4.dropWhile Char.isWhitespace).isEmpty then some (sgn * mantissa)
      else none

/-! ## `parse_duration` (streamlit_app.py lines 60–67)

```python
def parse_duration(duration_str):
    try:
        duration_str = duration_str.replace('PT', '').replace('S', '')
        return float(duration_str)
    except:
        return None
```
-/

/-- Translation of `parse_duration`: strip every `PT` and `S`, then convert
with `float`; any conversion failure becomes `none`. -/
def parse_duration (duration_str : String) : Option ℚ :=
  parseFloatQ (stripS (stripPT duration_str.data))

/-! ## `parse_datetime` (streamlit_app.py lines 69–74)

```python
def parse_datetime(datetime_str):
    try:
        return datetime.fromisoformat(datetime_str.replace('Z', '+00:00'))
    except:
        return None
```
-/

/-- A calendar date. -/
structure PyDate where
  year : Nat
  month : Nat
  day : Nat
deriving DecidableEq, Repr

/-- A timezone-naive-or-aware timestamp, as far as this program observes it
(only the date component is ever consumed, via `datetime.date()`). -/
structure PyDateTime where
  year : Nat
  month : Nat
  day : Nat
  hour : Nat
  minute : Nat
  second : ℚ
deriving DecidableEq, Repr

/-- Model of Python's `datetime.date()`. -/
def PyDateTime.date (dt : PyDateTime) : PyDate :=
  ⟨dt.year, dt.month, dt.day⟩

/-- Model of Python's `str.replace('Z', '+00:00')`. -/
def replZ : List Char → List Char
  | 'Z' :: rest => '+' :: '0' :: '0' :: ':' :: '0' :: '0' :: replZ rest
  | c :: rest => c :: replZ rest
  | [] => []

/-- Days per month, with leap years (model of the Gregorian rule used by
Python's `datetime`). -/
def daysInMonth (year month : Nat) : Nat :=
  if month = 2 then
    if year % 4 = 0 ∧ (year % 100 ≠ 0 ∨ year % 400 = 0) then 29 else 28
  else if month = 4 ∨ month = 6 ∨ month = 9 ∨ month = 11 then 30
  else 31

/-- Parse exactly `n` decimal digits; returns the value and the rest. -/
def takeDigitsN : Nat → List Char → Option (Nat × List Char)
  | 0, cs => some (0, cs)
  | _ + 1, [] => none
  | n + 1, c :: cs =>
    match digitVal c with
    | some d =>
      (takeDigitsN n cs).map (fun p => (d * 10 ^ n + p.1, p.2))
    | none => none

/-- Parse an optional `±HH:MM` UTC-offset suffix; the offset itself is not
observed by the program (only `.date()` is used), so just validate it. -/
def parseOffset : List Char → Bool
  | [] => true
  | s :: r =>
    if s = '+' ∨ s = '-' then
      match takeDigitsN 2 r with
      | some (hh, ':' :: r2) =>
        (match takeDigitsN 2 r2 with
         | some (mm, []) => hh < 24 && mm < 60
         | _ => false)
      | _ => false
    else false

/-- Parse `[.ffffff]` fractional seconds followed by an optional offset. -/
def parseFracAndOffset (ss : Nat) : List Char → Option ℚ
  | '.' :: r =>
    let (ds, r2) := spanDigits r
    if ds.isEmpty then none
    else if parseOffset r2 then
      some ((ss : ℚ) + (digitsToNat ds : ℚ) / (10 : ℚ) ^ ds.length)
    else none
  | r => if parseOffset r then some (ss : ℚ) else none

/-- Model of Python's `datetime.fromisoformat` on the extended ISO-8601
subset this program feeds it: `YYYY-MM-DD[THH:MM[:SS[.ffffff]]][±HH:MM]`
(after the `Z` replacement no literal `Z` remains).  Out-of-range fields are
rejected, as in CPython. -/
def fromisoformat (cs : List Char) : Option PyDateTime := do
  let (y, cs1) ← takeDigitsN 4 cs
  match cs1 with
  | '-' :: cs2 =>
    let (mo, cs3) ← takeDigitsN 2 cs2
    match cs3 with
    | '-' :: cs4 =>
      let (d, cs5) ← takeDigitsN 2 cs4
      if 1 ≤ mo ∧ mo ≤ 12 ∧ 1 ≤ d ∧ d ≤ daysInMonth y mo then
        match cs5 with
        | [] => some ⟨y, mo, d, 0, 0, 0⟩
        | 'T' :: cs6 =>
          let (hh, cs7) ← takeDigitsN 2 cs6
          match cs7 with
          | ':' :: cs8 =>
            let (mi, cs9) ← takeDigitsN 2 cs8
            if hh < 24 ∧ mi < 60 then
              match cs9 with
              | ':' :: cs10 =>
                let (ss, cs11) ← takeDigitsN 2 cs10
                if ss < 60 then
                  (parseFracAndOffset ss cs11).map (fun sec => ⟨y, mo, d, hh, mi, sec⟩)
                else none
              | r => if parseOffset r then some ⟨y, mo, d, hh, mi, 0⟩ else none
            else none
          | _ => none
        | _ => none
      else none
    | _ => none
  | _ => none

/-- Translation of `parse_datetime`: replace `Z` with `+00:00`, then
`fromisoformat`; any failure becomes `none`. -/
def parse_datetime (datetime_str : String) : Option PyDateTime :=
  fromisoformat (replZ datetime_str.data)

/-! ## Input document schema (§6 of the spec; consumed by
`process_exercise_data` and `extract_date_from_json`)

Each optional JSON key becomes an `Option` field; a sub-object becomes an
optional structure. -/

/-- Python: `altitude` / `heartRate` sub-object: `{min, avg, max}`, each optional. -/
structure MinAvgMax where
  min : Option ℚ := none
  avg : Option ℚ := none
  max : Option ℚ := none
deriving DecidableEq, Repr

/-- Python: `speed` sub-object: `{avg, max}` in m/s. -/
structure SpeedObj where
  avg : Option ℚ := none
  max : Option ℚ := none
deriving DecidableEq, Repr

/-- One entry of `zones.speed`. -/
structure SpeedZone where
  lowerLimit : Option ℚ := none
  higherLimit : Option ℚ := none
  inZone : Option String := none
  distance : Option ℚ := none
deriving DecidableEq, Repr

/-- Python: `zones` sub-object; only the `speed` list is consumed. -/
structure ZonesObj where
  speed : Option (List SpeedZone) := none
deriving DecidableEq, Repr

/-- One exercise entry of the input document. -/
structure Exercise where
  sport : Option String := none
  startTime : Option String := none
  duration : Option String := none
  distance : Option ℚ := none
  kiloCalories : Option ℚ := none
  ascent : Option ℚ := none
  descent : Option ℚ := none
  altitude : Option MinAvgMax := none
  heartRate : Option MinAvgMax := none
  speed : Option SpeedObj := none
  zones : Option ZonesObj := none
deriving DecidableEq, Repr

/-- A parsed input document: a mapping that may carry an `exercises` list. -/
structure Doc where
  exercises : Option (List Exercise) := none
deriving DecidableEq, Repr

/-! ## `extract_date_from_json` (streamlit_app.py lines 86–97)

```python
def extract_date_from_json(data):
    try:
        if 'exercises' in data and len(data['exercises']) > 0:
            start_time = data['exercises'][0].get('startTime')
            if start_time:
                dt = parse_datetime(start_time)
                if dt:
                    return dt.date()
        return datetime.now().date()
    except:
        return datetime.now().date()
```

`datetime.now().date()` is an ambient effect; it is passed in as the
explicit argument `today`. -/

/-- Translation of `extract_date_from_json`. -/
def extract_date_from_json (data : Doc) (today : PyDate) : PyDate :=
  match data.exercises with
  | some (e :: _) =>
    match e.startTime with
    | some s =>
      if s ≠ "" then
        match parse_datetime s with
        | some dt => dt.date
        | none => today
      else today
    | none => today
  | _ => today

/-! ## `process_exercise_data` (streamlit_app.py lines 99–158)

The produced Python dict holds a fixed set of keys; keys that the code may
leave unset, or set to `None`, are modelled as `Option` fields that are
`none` in exactly those cases. -/

/-- The flat metric mapping produced for one exercise entry. -/
structure Processed where
  sport : String
  durata_secondi : Option ℚ
  durata_minuti : Option ℚ
  distanza_metri : ℚ
  distanza_km : Option ℚ
  calorie : ℚ
  ascent : ℚ
  descent : ℚ
  altitudine_min : Option ℚ
  altitudine_avg : Option ℚ
  altitudine_max : Option ℚ
  fc_min : Option ℚ
  fc_avg : Option ℚ
  fc_max : Option ℚ
  velocita_avg_ms : Option ℚ
  velocita_max_ms : Option ℚ
  velocita_avg_kmh : Option ℚ
  velocita_max_kmh : Option ℚ
  passo_medio_min_km : Option ℚ
  velocita_media_calc : Option ℚ
  zona_vel_min : Option ℚ
  zona_vel_max : Option ℚ
  tempo_in_zona : Option ℚ
  distanza_in_zona : Option ℚ
  intensita_fc : Option ℚ
deriving DecidableEq, Repr

/-- Python: `processed['durata_secondi'] = parse_duration(exercise.get('duration', '0'))`. -/
def durataSecondiOf (exercise : Exercise) : Option ℚ :=
  parse_duration (exercise.duration.getD ("0"))

/-- Python: `processed['durata_minuti'] = x / 60 if x else None` for
`x = processed['durata_secondi']` (Python truthiness: `None` and `0` are
falsy). -/
def durataMinutiOf (exercise : Exercise) : Option ℚ :=
  match durataSecondiOf exercise with
  | some s => if s ≠ 0 then some (s / 60) else none
  | none => none

/-- Python: `processed['distanza_metri'] = exercise.get('distance', 0)`. -/
def distanzaMetriOf (exercise : Exercise) : ℚ :=
  exercise.distance.getD 0

/-- Python: `processed['distanza_km'] = m / 1000 if m else None`. -/
def distanzaKmOf (exercise : Exercise) : Option ℚ :=
  if distanzaMetriOf exercise ≠ 0 then some (distanzaMetriOf exercise / 1000) else none

/-- Python: `processed['fc_avg'] = hr.get('avg', 0)`, set only when `heartRate` is
present. -/
def fcAvgOf (exercise : Exercise) : Option ℚ :=
  exercise.heartRate.map (fun hr => hr.avg.getD 0)

/-- Python: `processed['fc_max'] = hr.get('max', 0)`, set only when `heartRate` is
present. -/
def fcMaxOf (exercise : Exercise) : Option ℚ :=
  exercise.heartRate.map (fun hr => hr.max.getD 0)

/-- Python: `processed['velocita_avg_ms'] = speed.get('avg', 0)`, set only when
`speed` is present. -/
def velocitaAvgMsOf (exercise : Exercise) : Option ℚ :=
  exercise.speed.map (fun sp => sp.avg.getD 0)

/-- Python: `processed['velocita_avg_kmh'] = v * 3.6 if v else None`. -/
def velocitaAvgKmhOf (exercise : Exercise) : Option ℚ :=
  match velocitaAvgMsOf exercise with
  | some v => if v ≠ 0 then some (v * 3.6) else none
  | none => none

/-- Python: `processed['velocita_max_kmh] = v * 3.6 if v else None` for the maximum
speed. -/
def velocitaMaxKmhOf (exercise : Exercise) : Option ℚ :=
  match exercise.speed.map (fun sp => sp.max.getD 0) with
  | some v => if v ≠ 0 then some (v * 3.6) else none
  | none => none

/-- Python: `if kmh and kmh > 0: processed['passo_medio_min_km'] = 60 / kmh`. -/
def passoMedioOf (exercise : Exercise) : Option ℚ :=
  match velocitaAvgKmhOf exercise with
  | some k => if k ≠ 0 ∧ 0 < k then some (60 / k) else none
  | none => none

/-- Python: `if processed['distanza_km'] and processed['durata_minuti']:
processed['velocita_media_calc'] = dk / (dm / 60)`. -/
def velocitaMediaCalcOf (exercise : Exercise) : Option ℚ :=
  match distanzaKmOf exercise, durataMinutiOf exercise with
  | some dk, some dm => if dk ≠ 0 ∧ dm ≠ 0 then some (dk / (dm / 60)) else none
  | _, _ => none

/-- The first entry of `exercise['zones']['speed']`, when present and
non-empty. -/
def firstZoneOf (exercise : Exercise) : Option SpeedZone :=
  match exercise.zones with
  | some z =>
    match z.speed with
    | some (z0 :: _) => some z0
    | _ => none
  | none => none

/-- Python: `if processed.get('fc_avg') and processed.get('fc_max'):
processed['intensita_fc'] = (fc_avg / fc_max) * 100`. -/
def intensitaFcOf (exercise : Exercise) : Option ℚ :=
  match fcAvgOf exercise, fcMaxOf exercise with
  | some a, some m => if a ≠ 0 ∧ m ≠ 0 then some (a / m * 100) else none
  | _, _ => none

/-- Translation of `process_exercise_data`.  Python truthiness tests on a
possibly-`None` float (`if x:`) become `none`-or-zero tests; each dict
assignment is the correspondingly named helper above. -/
def process_exercise_data (exercise : Exercise) : Processed :=
  { sport := exercise.sport.getD ("N/A")
    durata_secondi := durataSecondiOf exercise
    durata_minuti := durataMinutiOf exercise
    distanza_metri := distanzaMetriOf exercise
    distanza_km := distanzaKmOf exercise
    calorie := exercise.kiloCalories.getD 0
    ascent := exercise.ascent.getD 0
    descent := exercise.descent.getD 0
    altitudine_min := exercise.altitude.map (fun a => a.min.getD 0)
    altitudine_avg := exercise.altitude.map (fun a => a.avg.getD 0)
    altitudine_max := exercise.altitude.map (fun a => a.max.getD 0)
    fc_min := exercise.heartRate.map (fun hr => hr.min.getD 0)
    fc_avg := fcAvgOf exercise
    fc_max := fcMaxOf exercise
    velocita_avg_ms := velocitaAvgMsOf exercise
    velocita_max_ms := exercise.speed.map (fun sp => sp.max.getD 0)
    velocita_avg_kmh := velocitaAvgKmhOf exercise
    velocita_max_kmh := velocitaMaxKmhOf exercise
    passo_medio_min_km := passoMedioOf exercise
    velocita_media_calc := velocitaMediaCalcOf exercise
    zona_vel_min := (firstZoneOf exercise).map (fun z => z.lowerLimit.getD 0)
    zona_vel_max := (firstZoneOf exercise).map (fun z => z.higherLimit.getD 0)
    tempo_in_zona :=
      match firstZoneOf exercise with
      | some z => parse_duration (z.inZone.getD ("0"))
      | none => none
    distanza_in_zona := (firstZoneOf exercise).map (fun z => z.distance.getD 0)
    intensita_fc := intensitaFcOf exercise }

/-! ## `calculate_improvement` (streamlit_app.py lines 160–186)

```python
def calculate_improvement(value1, value2, parameter_name):
    if value1 is None or value2 is None or value1 == 0:
        return None, "N/A"
    try:
        val1, val2 = float(value1), float(value2)
        diff = val2 - val1
        perc_change = (diff / val1 * 100) if val1 != 0 else 0
        negative_parameters = ['durata', 'tempo', 'passo', 'fc_min']
        positive_parameters = ['distanza', 'velocita', 'calorie', 'fc_max', 'fc_avg']
        is_negative_param = any(neg_param in parameter_name.lower() for neg_param in negative_parameters)
        is_positive_param = any(pos_param in parameter_name.lower() for pos_param in positive_parameters)
        if is_negative_param:
            improvement = -perc_change
        elif is_positive_param:
            improvement = perc_change
        else:
            improvement = perc_change
        return improvement, f"{diff:+.2f} ({perc_change:+.1f}%)"
    except (ValueError, TypeError):
        return None, "N/A"
```
-/

/-- A Python value as observed by `calculate_improvement`: `None`, a number,
or a value on which `float()` raises `ValueError`/`TypeError` (the callers
only ever pass `int`/`float`/`None`, but the function accepts anything). -/
inductive PyVal where
  | pyNone : PyVal
  | num (q : ℚ) : PyVal
  | other (tag : String) : PyVal
deriving DecidableEq, Repr

/-- Model of Python's `value == 0` for a `PyVal` (`None == 0` and
non-numeric `== 0` are `False`). -/
def pyEqZero : PyVal → Bool
  | .num q => q == 0
  | _ => false

/-- Model of Python's `float(value)`: identity on numbers, an exception
(`none`) otherwise. -/
def pyFloat : PyVal → Option ℚ
  | .num q => some q
  | _ => none

/-- The curated negative-is-better keyword list of `calculate_improvement`. -/
def negative_parameters : List String := ["durata", "tempo", "passo", "fc_min"]

/-- The curated positive-is-better keyword list of `calculate_improvement`. -/
def positive_parameters : List String := ["distanza", "velocita", "calorie", "fc_max", "fc_avg"]

/-- Python: `any(neg_param in parameter_name.lower() for neg_param in negative_parameters)`. -/
def isNegativeParam (parameter_name : String) : Bool :=
  negative_parameters.any (fun t => containsSub t.data (lowerChars parameter_name))

/-- Python: `any(pos_param in parameter_name.lower() for pos_param in positive_parameters)`. -/
def isPositiveParam (parameter_name : String) : Bool :=
  positive_parameters.any (fun t => containsSub t.data (lowerChars parameter_name))

/-- Round to the nearest integer, ties to even — the rounding used by
Python's fixed-point float formatting. -/
def roundHalfEven (q : ℚ) : ℤ :=
  let f := ⌊q⌋
  let r := q - f
  if r < 1 / 2 then f else if 1 / 2 < r then f + 1 else if f % 2 = 0 then f else f + 1

/-- Decimal rendering of a natural number (model of Python's `str`); the
first argument is recursion fuel, always sufficient at `n + 1`. -/
def natStrAux : Nat → Nat → List Char
  | 0, _ => []
  | fuel + 1, n =>
    if n < 10 then [Char.ofNat (48 + n)]
    else natStrAux fuel (n / 10) ++ [Char.ofNat (48 + n % 10)]

/-- Decimal rendering of a natural number as a string. -/
def natStr (n : Nat) : String := String.mk (natStrAux (n + 1) n)

/-- Digit rendering of the magnitude `n` (an integer count of `10 ^ -d`
units) with `d` decimal places, zero-padded. -/
def pyFmtNat (n d : Nat) : String :=
  let fp := n % 10 ^ d
  let fps := natStrAux (fp + 1) fp
  natStr (n / 10 ^ d) ++ "." ++ String.mk (List.replicate (d - fps.length) '0' ++ fps)

/-- Model of Python's format specifier `{q:+.df}`: explicit sign, then the
magnitude rounded half-to-even to `d` decimal places, zero-padded. -/
def pyFmt (q : ℚ) (d : Nat) : String :=
  (if q < 0 then ("-") else ("+")) ++ pyFmtNat (roundHalfEven (|q| * (10 : ℚ) ^ d)).toNat d

/-- Translation of `calculate_improvement`. -/
def calculate_improvement (value1 value2 : PyVal) (parameter_name : String) :
    Option ℚ × String :=
  if value1 = PyVal.pyNone ∨ value2 = PyVal.pyNone ∨ pyEqZero value1 then
    (none, "N/A")
  else
    match pyFloat value1, pyFloat value2 with
    | some val1, some val2 =>
      let diff := val2 - val1
      let perc_change := if val1 ≠ 0 then diff / val1 * 100 else 0
      let improvement :=
        if isNegativeParam parameter_name then -perc_change
        else if isPositiveParam parameter_name then perc_change
        else perc_change
      (some improvement, pyFmt diff 2 ++ " (" ++ pyFmt perc_change 1 ++ "%)")
    | _, _ => (none, "N/A")

/-! ## Generic flattener (spec §4.3)

The generic recursive flattener belongs to the repository's second variant,
which is not under `src/`; it is modelled here from the specification
text. -/

/-- Modelled from the spec: a nested JSON-like document — a scalar, a
mapping, or a list.  (The generic flattener source file is not in `src/`;
§4.3 of the spec defines its algorithm.) -/
inductive J where
  | s (v : ℚ) : J
  | obj (kvs : List (String × J)) : J
  | arr (es : List J) : J

/-- Modelled from the spec: "a list whose first element is a mapping" is
flattened element-wise; any other list is a terminal value. -/
def arrIsObjLed : List J → Bool
  | (J.obj _) :: _ => true
  | _ => false

/-- Modelled from the spec: child-key composition
`parent_key + separator + child_key`, with no prefix at the top level
(separator `_`). -/
def joinK (parent k : String) : String :=
  if parent = "" then k else parent ++ "_" ++ k

/-! Modelled from the spec: the flattener.  `flatVal key v` flattens the
value stored under the already-composed key `key`; mappings recurse with
composed child keys, mapping-led lists recurse element-wise with
index-suffixed keys (`key_N`), and anything else is a terminal entry. -/
mutual
def flatVal (key : String) : J → List (String × J)
  | J.obj kvs => flatObj key kvs
  | J.arr es => if arrIsObjLed es then flatArr key 0 es else [(key, J.arr es)]
  | v => [(key, v)]
def flatObj (parent : String) : List (String × J) → List (String × J)
  | [] => []
  | (k, v) :: rest => flatVal (joinK parent k) v ++ flatObj parent rest
def flatArr (parent : String) (i : Nat) : List J → List (String × J)
  | [] => []
  | e :: rest => flatVal (parent ++ "_" ++ natStr i) e ++ flatArr parent (i + 1) rest
end

/-- Modelled from the spec: flattening a whole document (a top-level
mapping, empty parent key). -/
def flatten_json (d : List (String × J)) : List (String × J) :=
  flatObj ("") d

/-! The leaves of a value, each with its path of key segments (mapping keys
and list indices), in traversal order — the specification-side description
of the leaf set against which the flattener is compared. -/
mutual
def leafVal : J → List (List String × J)
  | J.obj kvs => leafObj kvs
  | J.arr es => if arrIsObjLed es then leafArr 0 es else [([], J.arr es)]
  | v => [([], v)]
def leafObj : List (String × J) → List (List String × J)
  | [] => []
  | (k, v) :: rest => (leafVal v).map (fun pv => (k :: pv.1, pv.2)) ++ leafObj rest
def leafArr (i : Nat) : List J → List (List String × J)
  | [] => []
  | e :: rest => (leafVal e).map (fun pv => (natStr i :: pv.1, pv.2)) ++ leafArr (i + 1) rest
end

/-- The composed flat key of a leaf path (top level has no parent prefix). -/
def extendKey (key : String) (p : List String) : String := p.foldl joinK key

/-- The composed flat key of a leaf path of a whole document. -/
def composedKey (p : List String) : String := extendKey ("") p

/-- Splitting a character list on the separator `_` (the groups between
separators, in order). -/
def splitUnd : List Char → List (List Char)
  | [] => [[]]
  | c :: cs =>
    match splitUnd cs with
    | [] => [[]]
    | g :: gs => if c = '_' then [] :: g :: gs else (c :: g) :: gs

/-- Re-nesting step of the spec's round-trip: split a flat key back into its
path by cutting at the separator. -/
def splitKey (s : String) : List String :=
  (splitUnd s.data).map String.mk

/-- Re-nesting a flattened mapping: every flat entry keyed by its split
path. -/
def renest (l : List (String × J)) : List (List String × J) :=
  l.map (fun kv => (splitKey kv.1, kv.2))

/-- Wellformedness of mapping keys for the round-trip: nonempty and free of
the separator character. -/
def goodKey (k : String) : Bool :=
  !(k == "") && !(k.data.contains '_')

/-! Document-wide key wellformedness. -/
mutual
def goodV : J → Bool
  | J.s _ => true
  | J.obj kvs => goodKVs kvs
  | J.arr es => goodEs es
def goodKVs : List (String × J) → Bool
  | [] => true
  | (k, v) :: rest => goodKey k && goodV v && goodKVs rest
def goodEs : List J → Bool
  | [] => true
  | e :: rest => goodV e && goodEs rest
end

/-! "No scalar-only lists" (the claim's hypothesis): every list anywhere in
the document is led by a mapping, so no list is ever stored as a terminal
value. -/
mutual
def objLedV : J → Bool
  | J.s _ => true
  | J.obj kvs => objLedKVs kvs
  | J.arr es => arrIsObjLed es && objLedEs es
def objLedKVs : List (String × J) → Bool
  | [] => true
  | (_, v) :: rest => objLedV v && objLedKVs rest
def objLedEs : List J → Bool
  | [] => true
  | e :: rest => objLedV e && objLedEs rest
end

/-! ## Concrete example inputs used by witnesses and counterexamples -/

/-- Exercise with a speed sub-object whose average is 10/3 m/s = 12 km/h. -/
def exPace : Exercise := { speed := some { avg := some (10 / 3) } }

/-- Exercise whose `distance` field is present but zero. -/
def exDistZero : Exercise := { distance := some 0 }

/-- Exercise with zero distance and a valid 45-minute duration. -/
def exZeroDistDur : Exercise := { distance := some 0, duration := some ("PT2700S") }

/-- Exercise whose heart-rate sub-object has average 0 and maximum 138. -/
def exFcZero : Exercise := { heartRate := some { avg := some 0, max := some 138 } }

/-- Document with no exercises collection. -/
def docNoExercises : Doc := {}

/-- A fixed calendar date standing in for "today". -/
def someToday : PyDate := ⟨2026, 10, 12⟩

/-- A document whose nested key `b_c` contains the separator character. -/
def docSepKey : List (String × J) := [("a", J.obj [("b_c", J.s 1)])]

/-- A wellformed nested document with a mapping-led list. -/
def docRound : List (String × J) :=
  [("a", J.obj [("b", J.s 1), ("c", J.obj [("d", J.s 2)])]),
   ("l", J.arr [J.obj [("x", J.s 3)], J.obj [("y", J.s 4)]])]

end GdpDashboard

namespace GdpDashboard

/-! # Theorems -/

/-! ## Claim C2: the comparator's undefined sentinel -/

/-- Claim C2: for every input, the improvement comparator returns the
undefined sentinel `(None, "N/A")` — and never raises (totality of the
translation) — whenever either value is missing, the baseline `value1` is
zero, or either value is non-numeric; in particular `value1 = 0` yields the
sentinel regardless of `value2`. -/
theorem calculate_improvement_sentinel (value1 value2 : PyVal) (parameter_name : String)
    (h : value1 = PyVal.pyNone ∨ value2 = PyVal.pyNone ∨ value1 = PyVal.num 0 ∨
         (∃ t, value1 = PyVal.other t) ∨ (∃ t, value2 = PyVal.other t)) :
    calculate_improvement value1 value2 parameter_name = (none, "N/A") := by
  rcases h with h | h | h | ⟨t, h⟩ | ⟨t, h⟩ <;> subst h
  · simp [calculate_improvement]
  · cases value1 <;> simp [calculate_improvement, pyEqZero, pyFloat]
  · simp [calculate_improvement, pyEqZero]
  · cases value2 <;> simp [calculate_improvement, pyEqZero, pyFloat]
  · cases value1 <;> simp [calculate_improvement, pyEqZero, pyFloat]

/-- Witness for C2: the zero baseline `0 → 7` yields the sentinel. -/
theorem calculate_improvement_sentinel_witness :
    calculate_improvement (PyVal.num 0) (PyVal.num 7) ("distanza_km") = (none, "N/A") :=
  calculate_improvement_sentinel (PyVal.num 0) (PyVal.num 7) ("distanza_km")
    (Or.inr (Or.inr (Or.inl rfl)))

/-! ## Claim C10: negative classification takes precedence -/

/-- Claim C10: for every parameter name matched by both keyword lists, the
comparator applies the negative-is-better rule: the reported improvement is
`-percent_change`. -/
theorem negative_precedence (parameter_name : String) (v1 v2 : ℚ) (h : v1 ≠ 0)
    (hneg : isNegativeParam parameter_name = true)
    (_hpos : isPositiveParam parameter_name = true) :
    (calculate_improvement (PyVal.num v1) (PyVal.num v2) parameter_name).1 =
      some (-((v2 - v1) / v1 * 100)) := by
  simp [calculate_improvement, pyEqZero, pyFloat, h, hneg]

/-- Witness for C10: `passo_velocita` matches both lists; `10 → 12` reports
`-20`. -/
theorem negative_precedence_witness :
    (calculate_improvement (PyVal.num 10) (PyVal.num 12) ("passo_velocita")).1 =
      some (-20) := by
  have h := negative_precedence ("passo_velocita") 10 12 (by norm_num) (by decide) (by decide)
  rw [h]
  norm_num

/-! ## Claim C5: pace guard -/

/-- Claim C5: for every exercise entry with a speed sub-object, the pace
metric `passo_medio_min_km = 60 / velocita_avg_kmh` is computed exactly when
the average speed in km/h is strictly positive, and is absent otherwise, so
the division never has a zero or negative divisor. -/
theorem passo_medio_spec (e : Exercise) (sp : SpeedObj) (h : e.speed = some sp) :
    (process_exercise_data e).passo_medio_min_km =
      (if 0 < sp.avg.getD 0 * 3.6 then some (60 / (sp.avg.getD 0 * 3.6)) else none) := by
  by_cases h0 : sp.avg.getD 0 = 0
  · simp [process_exercise_data, passoMedioOf, velocitaAvgKmhOf, velocitaAvgMsOf, h, h0]
  · by_cases hpos : 0 < sp.avg.getD 0 * 3.6
    · simp [process_exercise_data, passoMedioOf, velocitaAvgKmhOf, velocitaAvgMsOf, h, h0,
        hpos, ne_of_gt hpos]
    · simp [process_exercise_data, passoMedioOf, velocitaAvgKmhOf, velocitaAvgMsOf, h, h0,
        hpos]

/-- Witness for C5: average speed 10/3 m/s (12 km/h) gives pace 5 min/km. -/
theorem passo_medio_spec_witness :
    (process_exercise_data exPace).passo_medio_min_km = some 5 := by
  have h := passo_medio_spec exPace { avg := some (10 / 3) } rfl
  rw [h]
  norm_num

/-! ## Claim C8 (corrected): distance conversion -/

/-- Counterexample to C8 as stated: the `distance` field present with value
`0` does not produce `distanza_km = 0 / 1000`; the truthiness guard makes
the derived metric absent. -/
theorem distanza_km_zero_counterexample :
    exDistZero.distance = some 0 ∧
      (process_exercise_data exDistZero).distanza_km ≠ some (0 / 1000) := by
  constructor
  · rfl
  · simp [process_exercise_data, distanzaKmOf, distanzaMetriOf, exDistZero]

/-- Claim C8 as amended: `distanza_km = distance / 1000` exactly when the
`distance` field is present and nonzero; a missing or zero distance yields
an absent metric, never an error. -/
theorem distanza_km_spec (e : Exercise) :
    (process_exercise_data e).distanza_km =
      (match e.distance with
       | some d => if d ≠ 0 then some (d / 1000) else none
       | none => none) := by
  cases hd : e.distance <;> simp [process_exercise_data, distanzaKmOf, distanzaMetriOf, hd]

/-! ## Claim C7 (corrected): heart-rate intensity -/

/-- Counterexample to C7 as stated: both heart-rate fields present and
`fc_max` nonzero, but `fc_avg = 0`, so the code omits `intensita_fc` where
the claim computes `0 / 138 * 100`. -/
theorem intensita_fc_zero_counterexample :
    (process_exercise_data exFcZero).fc_avg = some 0 ∧
      (process_exercise_data exFcZero).fc_max = some 138 ∧
      (process_exercise_data exFcZero).intensita_fc ≠ some (0 / 138 * 100) := by
  refine ⟨rfl, rfl, ?_⟩
  simp [process_exercise_data, intensitaFcOf, fcAvgOf, fcMaxOf, exFcZero]

/-- Claim C7 as amended: `intensita_fc = fc_avg / fc_max * 100` exactly when
the heart-rate sub-object is present and both `fc_avg` and `fc_max` are
nonzero; the metric is omitted otherwise. -/
theorem intensita_fc_spec (e : Exercise) :
    (process_exercise_data e).intensita_fc =
      (match e.heartRate with
       | some hr =>
         if hr.avg.getD 0 ≠ 0 ∧ hr.max.getD 0 ≠ 0
         then some (hr.avg.getD 0 / hr.max.getD 0 * 100) else none
       | none => none) := by
  cases hh : e.heartRate <;> simp [process_exercise_data, intensitaFcOf, fcAvgOf, fcMaxOf, hh]

/-! ## Claim C4: date extraction fallback -/

/-- Claim C4: date extraction never raises (the translation is total), and
when the document lacks an exercises collection, or the first entry's
`startTime` is absent, falsy, or unparseable, the extractor falls back to
today's date. -/
theorem extract_date_fallback (data : Doc) (today : PyDate)
    (h : data.exercises = none ∨ data.exercises = some [] ∨
         ∃ e rest, data.exercises = some (e :: rest) ∧
           (e.startTime = none ∨ e.startTime = some ("") ∨
            ∃ s, e.startTime = some s ∧ parse_datetime s = none)) :
    extract_date_from_json data today = today := by
  rcases h with h | h | ⟨e, rest, h, he⟩
  · simp [extract_date_from_json, h]
  · simp [extract_date_from_json, h]
  · rcases he with he | he | ⟨s, he, hs⟩
    · simp [extract_date_from_json, h, he]
    · simp [extract_date_from_json, h, he]
    · simp [extract_date_from_json, h, he, hs]

/-- Witness for C4: a document with no exercises collection yields the
supplied "today". -/
theorem extract_date_fallback_witness :
    extract_date_from_json docNoExercises someToday = someToday :=
  extract_date_fallback docNoExercises someToday (Or.inl rfl)

/-! ## Claim C1: the comparator's formula -/

/-- Evaluation helper: `{-5:+.2f}` renders as `-5.00`. -/
theorem pyFmt_neg_five : pyFmt (-5) 2 = "-5.00" := by
  have h2 : roundHalfEven (|(-5 : ℚ)| * (10 : ℚ) ^ (2 : ℕ)) = 500 := by
    norm_num [roundHalfEven]
  simp only [pyFmt, h2]
  rw [if_pos (by norm_num : (-5 : ℚ) < 0)]
  decide

/-- Evaluation helper: `{-10:+.1f}` renders as `-10.0`. -/
theorem pyFmt_neg_ten : pyFmt (-10) 1 = "-10.0" := by
  have h2 : roundHalfEven (|(-10 : ℚ)| * (10 : ℚ) ^ (1 : ℕ)) = 100 := by
    norm_num [roundHalfEven]
  simp only [pyFmt, h2]
  rw [if_pos (by norm_num : (-10 : ℚ) < 0)]
  decide

/-- Claim C1: for every parameter name and numeric values with nonzero
baseline, the comparator computes `diff = value2 - value1`,
`percent_change = diff / value1 * 100`, negates the result exactly for
negative-is-better names, and formats the change string as
`"{diff:+.2f} ({percent_change:+.1f}%)"`. -/
theorem calculate_improvement_formula (parameter_name : String) (value1 value2 : ℚ)
    (h : value1 ≠ 0) :
    calculate_improvement (PyVal.num value1) (PyVal.num value2) parameter_name =
      (some (if isNegativeParam parameter_name
             then -((value2 - value1) / value1 * 100)
             else (value2 - value1) / value1 * 100),
       pyFmt (value2 - value1) 2 ++ " (" ++
         pyFmt ((value2 - value1) / value1 * 100) 1 ++ "%)") := by
  by_cases hn : isNegativeParam parameter_name <;>
    simp [calculate_improvement, pyEqZero, pyFloat, h, hn]

/-- Witness for C1: duration (negative-is-better) `50 → 45` yields reported
improvement `+10` and change string `-5.00 (-10.0%)`. -/
theorem calculate_improvement_formula_witness :
    calculate_improvement (PyVal.num 50) (PyVal.num 45) ("durata_minuti") =
      (some 10, "-5.00 (-10.0%)") := by
  have h := calculate_improvement_formula ("durata_minuti") 50 45 (by norm_num)
  rw [h]
  have hneg : isNegativeParam ("durata_minuti") = true := by decide
  have hp : ((45 : ℚ) - 50) / 50 * 100 = -10 := by norm_num
  have hd : (45 : ℚ) - 50 = -5 := by norm_num
  rw [hp, hd, hneg, pyFmt_neg_five, pyFmt_neg_ten]
  simp only [Prod.mk.injEq]
  exact ⟨by norm_num, by decide⟩

/-! ## Claim C3 (corrected): the duration parser -/

/-- The function `stripPT` leaves a `P`-free character list unchanged. -/
theorem stripPT_of_not_mem (l : List Char) (h : 'P' ∉ l) : stripPT l = l := by
  induction l with
  | nil => rfl
  | cons c cs ih =>
    have hc : c ≠ 'P' := fun hc => h (hc ▸ List.mem_cons_self c cs)
    have hcs : 'P' ∉ cs := fun m => h (List.mem_cons_of_mem c m)
    rw [stripPT.eq_def]
    simp [hc, ih hcs]

/-- The function `stripS` leaves an `S`-free character list unchanged. -/
theorem stripS_of_not_mem (l : List Char) (h : 'S' ∉ l) : stripS l = l := by
  induction l with
  | nil => rfl
  | cons c cs ih =>
    have hc : c ≠ 'S' := fun hc => h (hc ▸ List.mem_cons_self c cs)
    have hcs : 'S' ∉ cs := fun m => h (List.mem_cons_of_mem c m)
    simp [stripS, hc, ih hcs]

/-- The function `stripS` removes a trailing `S`. -/
theorem stripS_append_S (l : List Char) : stripS (l ++ ['S']) = stripS l := by
  induction l with
  | nil => simp [stripS]
  | cons c cs ih =>
    by_cases hc : c = 'S' <;> simp [stripS, hc, ih]

/-- The function `stripPT` removes a leading `PT`. -/
theorem stripPT_cons_PT (l : List Char) : stripPT ('P' :: 'T' :: l) = stripPT l := by
  simp [stripPT]

/-- Claim C3 as amended: `parse_duration` maps `PT<seconds>S` to the numeric
value of `<seconds>` (its `float` reading), but the `S` is not required: the
same numeric token without the trailing `S` parses identically, because the
code merely deletes the `PT` and `S` markers and attempts a `float`
conversion, returning `none` only when that conversion fails. -/
theorem parse_duration_spec (s : String) (hP : 'P' ∉ s.data) (hS : 'S' ∉ s.data) :
    parse_duration ("PT" ++ s ++ "S") = parseFloatQ s.data ∧
      parse_duration ("PT" ++ s) = parseFloatQ s.data := by
  constructor
  · have hdata : ("PT" ++ s ++ "S").data = 'P' :: 'T' :: (s.data ++ ['S']) := by
      simp [String.data_append]
    unfold parse_duration
    rw [hdata, stripPT_cons_PT, stripPT_of_not_mem _ (by simp [hP]),
      stripS_append_S, stripS_of_not_mem _ hS]
  · have hdata : ("PT" ++ s).data = 'P' :: 'T' :: s.data := by
      simp [String.data_append]
    unfold parse_duration
    rw [hdata, stripPT_cons_PT, stripPT_of_not_mem _ hP, stripS_of_not_mem _ hS]

/-- Evaluation helper: the float reading of `4819.500`. -/
theorem parseFloatQ_4819_500 :
    parseFloatQ ['4', '8', '1', '9', '.', '5', '0', '0'] = some (9639 / 2) := by
  have h1 : ∀ q : ℚ, parseFloatQ ['4', '8', '1', '9', '.', '5', '0', '0'] = some q ↔
      some ((1 : ℚ) * ((digitsToNat ['4', '8', '1', '9'] : ℚ) +
        (digitsToNat ['5', '0', '0'] : ℚ) / (10 : ℚ) ^ (3 : ℕ))) = some q := by
    intro q; exact Iff.rfl
  rw [h1]
  have hd : digitsToNat ['4', '8', '1', '9'] = 4819 := by decide
  have he : digitsToNat ['5', '0', '0'] = 500 := by decide
  rw [hd, he]
  norm_num

/-- Counterexample to C3 as stated: the malformed token `PT4819.500` —
missing its trailing `S` — does not yield the unavailable sentinel; it still
parses to `4819.5`. -/
theorem parse_duration_missing_S :
    parse_duration ("PT4819.500") = some (9639 / 2) ∧
      parse_duration ("PT4819.500") ≠ none := by
  have h0 : stripS (stripPT (("PT4819.500" : String)).data) =
      ['4', '8', '1', '9', '.', '5', '0', '0'] := by decide
  unfold parse_duration
  rw [h0, parseFloatQ_4819_500]
  exact ⟨rfl, by simp⟩

/-- Witness for C3 (amended): the well-formed token `PT4819.500S` parses to
`4819.5`. -/
theorem parse_duration_spec_witness :
    parse_duration ("PT4819.500S") = some (9639 / 2) := by
  have h := (parse_duration_spec ("4819.500") (by decide) (by decide)).1
  have he : ("PT" ++ "4819.500" ++ "S" : String) = "PT4819.500S" := by decide
  rw [he] at h
  have hdata : ("4819.500" : String).data = ['4', '8', '1', '9', '.', '5', '0', '0'] := by
    decide
  rw [h, hdata, parseFloatQ_4819_500]

/-! ## Claim C6 (corrected): calculated average speed -/

/-- Evaluation helper: `parse_duration("PT2700S") = 2700`. -/
theorem parse_duration_PT2700S : parse_duration ("PT2700S") = some 2700 := by
  have h0 : stripS (stripPT (("PT2700S" : String)).data) = ['2', '7', '0', '0'] := by decide
  unfold parse_duration
  rw [h0]
  have h1 : ∀ q : ℚ, parseFloatQ ['2', '7', '0', '0'] = some q ↔
      some ((1 : ℚ) * ((digitsToNat ['2', '7', '0', '0'] : ℚ) +
        (digitsToNat [] : ℚ) / (10 : ℚ) ^ (0 : ℕ))) = some q := by
    intro q; exact Iff.rfl
  rw [h1]
  have hd : digitsToNat ['2', '7', '0', '0'] = 2700 := by decide
  have he : digitsToNat ([] : List Char) = 0 := by decide
  rw [hd, he]
  norm_num

/-- Counterexample to C6 as stated: distance present but zero, duration 45
minutes (nonzero), yet the code omits `velocita_media_calc` where the claim
computes `0 / (45 / 60)`. -/
theorem velocita_media_zero_distance_counterexample :
    exZeroDistDur.distance = some 0 ∧
      (process_exercise_data exZeroDistDur).durata_minuti = some 45 ∧
      (process_exercise_data exZeroDistDur).velocita_media_calc ≠ some (0 / (45 / 60)) := by
  refine ⟨rfl, ?_, ?_⟩
  · simp [process_exercise_data, durataMinutiOf, durataSecondiOf, exZeroDistDur,
      parse_duration_PT2700S]
    norm_num
  · simp [process_exercise_data, velocitaMediaCalcOf, distanzaKmOf, distanzaMetriOf,
      exZeroDistDur]

/-- Claim C6 as amended: `velocita_media_calc = distance_km /
(duration_minutes / 60)` exactly when the distance is present and nonzero
and the duration parses to a nonzero second count; the metric is omitted
otherwise (in particular for a present-but-zero distance). -/
theorem velocita_media_calc_spec (e : Exercise) :
    (process_exercise_data e).velocita_media_calc =
      (match e.distance, parse_duration (e.duration.getD ("0")) with
       | some d, some s =>
         if d ≠ 0 ∧ s ≠ 0 then some ((d / 1000) / ((s / 60) / 60)) else none
       | _, _ => none) := by
  rcases hd : e.distance with _ | d
  · cases hs : parse_duration (e.duration.getD ("0")) <;>
      simp [process_exercise_data, velocitaMediaCalcOf, distanzaKmOf, distanzaMetriOf,
        durataMinutiOf, durataSecondiOf, hd, hs]
  · rcases hs : parse_duration (e.duration.getD ("0")) with _ | sq
    · simp [process_exercise_data, velocitaMediaCalcOf, distanzaKmOf, distanzaMetriOf,
        durataMinutiOf, durataSecondiOf, hd, hs]
    · by_cases hd0 : d = 0
      · simp [process_exercise_data, velocitaMediaCalcOf, distanzaKmOf, distanzaMetriOf,
          durataMinutiOf, durataSecondiOf, hd, hs, hd0]
      · by_cases hs0 : sq = 0
        · simp [process_exercise_data, velocitaMediaCalcOf, distanzaKmOf, distanzaMetriOf,
            durataMinutiOf, durataSecondiOf, hd, hs, hd0, hs0]
        · have h1 : d / 1000 ≠ 0 := div_ne_zero hd0 (by norm_num)
          have h2 : sq / 60 ≠ 0 := div_ne_zero hs0 (by norm_num)
          simp [process_exercise_data, velocitaMediaCalcOf, distanzaKmOf, distanzaMetriOf,
            durataMinutiOf, durataSecondiOf, hd, hs, hd0, hs0, h1, h2]

/-! ## Claim C9 (corrected): the flattener round-trip -/

/-- A decimal digit character is not the separator. -/
theorem digitChar_ne_und (m : Nat) (h : m < 10) : Char.ofNat (48 + m) ≠ '_' := by
  interval_cases m <;> decide

/-- The decimal rendering of a natural number never contains the separator. -/
theorem natStrAux_no_und (fuel n : Nat) : '_' ∉ natStrAux fuel n := by
  induction fuel generalizing n with
  | zero => simp [natStrAux]
  | succ f ih =>
    by_cases hn : n < 10
    · simp only [natStrAux, if_pos hn, List.mem_singleton]
      exact fun h => (digitChar_ne_und n hn) h.symm
    · simp only [natStrAux, if_neg hn, List.mem_append, List.mem_singleton]
      rintro (h | h)
      · exact ih (n / 10) h
      · exact (digitChar_ne_und (n % 10) (Nat.mod_lt n (by norm_num))) h.symm

/-- The decimal rendering of a natural number is nonempty. -/
theorem natStrAux_ne_nil (n : Nat) : natStrAux (n + 1) n ≠ [] := by
  by_cases hn : n < 10
  · simp [natStrAux, hn]
  · simp [natStrAux, hn]

/-- The function `natStr` yields a nonempty, separator-free string. -/
theorem natStr_good (n : Nat) : natStr n ≠ "" ∧ '_' ∉ (natStr n).data := by
  constructor
  · intro h
    exact natStrAux_ne_nil n (congrArg String.data h)
  · exact natStrAux_no_und (n + 1) n

/-- A string of the form `a ++ "_" ++ b` is never empty. -/
theorem append_und_ne_empty (a b : String) : a ++ "_" ++ b ≠ "" := by
  intro h
  have := congrArg String.data h
  simp [String.data_append] at this

/-- The function `joinK` with a nonempty child key never yields the empty string. -/
theorem joinK_ne_empty (parent k : String) (hk : k ≠ "") : joinK parent k ≠ "" := by
  unfold joinK
  split
  · exact hk
  · exact append_und_ne_empty parent k

/-- A split never produces the empty group list. -/
theorem splitUnd_ne_nil (l : List Char) : splitUnd l ≠ [] := by
  cases l with
  | nil => simp [splitUnd]
  | cons c cs =>
    rw [splitUnd]
    rcases h : splitUnd cs with _ | ⟨g, gs⟩
    · simp
    · by_cases hc : c = '_' <;> simp [hc]

/-- Splitting a separator-free list yields the single group. -/
theorem splitUnd_no_und (l : List Char) (h : '_' ∉ l) : splitUnd l = [l] := by
  induction l with
  | nil => rfl
  | cons c cs ih =>
    have hc : c ≠ '_' := fun hc => h (hc ▸ List.mem_cons_self c cs)
    have hcs : '_' ∉ cs := fun m => h (List.mem_cons_of_mem c m)
    rw [splitUnd, ih hcs]
    simp [hc]

/-- Splitting `g ++ '_' :: r` with `g` separator-free peels off `g`. -/
theorem splitUnd_append_sep (g r : List Char) (h : '_' ∉ g) :
    splitUnd (g ++ '_' :: r) = g :: splitUnd r := by
  induction g with
  | nil =>
    simp only [List.nil_append]
    rw [splitUnd]
    rcases hr : splitUnd r with _ | ⟨g0, gs⟩
    · exact absurd hr (splitUnd_ne_nil r)
    · simp
  | cons c cs ih =>
    have hc : c ≠ '_' := fun hc => h (hc ▸ List.mem_cons_self c cs)
    have hcs : '_' ∉ cs := fun m => h (List.mem_cons_of_mem c m)
    simp only [List.cons_append]
    rw [splitUnd, ih hcs]
    simp [hc]

/-- Data of a composed key: prepending a nonempty parent. -/
theorem extendKey_shift (p : List String) (k s : String) (hk : k ≠ "") (hs : s ≠ "")
    (hp : ∀ t ∈ p, t ≠ "") :
    extendKey k (s :: p) = k ++ "_" ++ extendKey s p := by
  induction p generalizing k s with
  | nil =>
    simp [extendKey, joinK, hk]
  | cons t p ih =>
    have ht : t ≠ "" := hp t (List.mem_cons_self t p)
    have hp2 : ∀ u ∈ p, u ≠ "" := fun u hu => hp u (List.mem_cons_of_mem t hu)
    have h1 : extendKey k (s :: t :: p) = extendKey (k ++ "_" ++ s) (t :: p) := by
      simp [extendKey, joinK, hk]
    rw [h1, ih (k ++ "_" ++ s) t (append_und_ne_empty k s) ht hp2, ih s t hs ht hp2]
    apply String.ext
    simp [String.data_append]

/-- Splitting a composed key recovers the segments when every segment is
nonempty and separator-free. -/
theorem splitKey_extendKey (p : List String) (key : String)
    (hkey : key ≠ "" ∧ '_' ∉ key.data)
    (hp : ∀ s ∈ p, s ≠ "" ∧ '_' ∉ s.data) :
    splitKey (extendKey key p) = key :: p := by
  induction p generalizing key with
  | nil =>
    unfold splitKey extendKey
    simp only [List.foldl_nil]
    rw [splitUnd_no_und key.data hkey.2]
    rfl
  | cons s p ih =>
    have hs := hp s (List.mem_cons_self s p)
    have hp2 : ∀ t ∈ p, t ≠ "" ∧ '_' ∉ t.data := fun t ht => hp t (List.mem_cons_of_mem s ht)
    rw [extendKey_shift p key s hkey.1 hs.1 (fun t ht => (hp2 t ht).1)]
    have hdata : (key ++ "_" ++ extendKey s p).data = key.data ++ '_' :: (extendKey s p).data := by
      simp [String.data_append]
    unfold splitKey
    rw [hdata, splitUnd_append_sep key.data ((extendKey s p).data) hkey.2]
    have hrest := ih s hs hp2
    unfold splitKey at hrest
    simp only [List.map_cons]
    rw [hrest]

/-- The wellformedness predicate `goodKey` unpacked. -/
theorem goodKey_iff (k : String) : goodKey k = true ↔ k ≠ "" ∧ '_' ∉ k.data := by
  simp [goodKey]

mutual
/-- The flattener stores, for each leaf of a wellformed value, exactly the
leaf's value under its composed key, in traversal order. -/
theorem flatVal_eq (key : String) (v : J) (hk : key ≠ "") (hv : goodV v = true) :
    flatVal key v = (leafVal v).map (fun pv => (extendKey key pv.1, pv.2)) := by
  cases v with
  | s q => simp [flatVal, leafVal, extendKey]
  | obj kvs =>
    have hg : goodKVs kvs = true := hv
    simpa [flatVal, leafVal] using flatObj_eq key kvs hg
  | arr es =>
    have hg : goodEs es = true := hv
    by_cases h : arrIsObjLed es
    · simpa [flatVal, leafVal, h] using flatArr_eq key 0 es hk hg
    · simp [flatVal, leafVal, h, extendKey]

/-- Object-level version of `flatVal_eq`. -/
theorem flatObj_eq (parent : String) (kvs : List (String × J)) (hg : goodKVs kvs = true) :
    flatObj parent kvs = (leafObj kvs).map (fun pv => (extendKey parent pv.1, pv.2)) := by
  match kvs with
  | [] => simp [flatObj, leafObj]
  | (k, v) :: rest =>
    have hparts : goodKey k = true ∧ goodV v = true ∧ goodKVs rest = true := by
      simpa [goodKVs, Bool.and_eq_true, and_assoc] using hg
    have hk : k ≠ "" := ((goodKey_iff k).1 hparts.1).1
    have h1 := flatVal_eq (joinK parent k) v (joinK_ne_empty parent k hk) hparts.2.1
    have h2 := flatObj_eq parent rest hparts.2.2
    simp [flatObj, leafObj, h1, h2, Function.comp, extendKey]

/-- List-level version of `flatVal_eq`. -/
theorem flatArr_eq (parent : String) (i : Nat) (es : List J) (hp : parent ≠ "")
    (hg : goodEs es = true) :
    flatArr parent i es = (leafArr i es).map (fun pv => (extendKey parent pv.1, pv.2)) := by
  match es with
  | [] => simp [flatArr, leafArr]
  | e :: rest =>
    have hparts : goodV e = true ∧ goodEs rest = true := by
      simpa [goodEs, Bool.and_eq_true] using hg
    have h1 := flatVal_eq (parent ++ "_" ++ natStr i) e (append_und_ne_empty parent (natStr i))
      hparts.1
    have h2 := flatArr_eq parent (i + 1) rest hp hparts.2
    simp [flatArr, leafArr, h1, h2, Function.comp, extendKey, joinK, hp]
end

mutual
/-- Leaves of a wellformed, mapping-led value: separator-free nonempty path
segments, scalar values. -/
theorem leafVal_good (v : J) (hg : goodV v = true) (ho : objLedV v = true) :
    ∀ pv ∈ leafVal v, (∀ s ∈ pv.1, s ≠ "" ∧ '_' ∉ s.data) ∧ ∃ q, pv.2 = J.s q := by
  cases v with
  | s q =>
    intro pv hm
    simp only [leafVal, List.mem_singleton] at hm
    subst hm
    exact ⟨by simp, q, rfl⟩
  | obj kvs => exact leafObj_good kvs hg ho
  | arr es =>
    have hled : arrIsObjLed es = true ∧ objLedEs es = true := by
      simpa [objLedV, Bool.and_eq_true] using ho
    intro pv hm
    rw [leafVal, if_pos hled.1] at hm
    exact leafArr_good 0 es hg hled.2 pv hm

/-- Object-level version of `leafVal_good`; paths are additionally
nonempty. -/
theorem leafObj_good (kvs : List (String × J)) (hg : goodKVs kvs = true)
    (ho : objLedKVs kvs = true) :
    ∀ pv ∈ leafObj kvs, (∀ s ∈ pv.1, s ≠ "" ∧ '_' ∉ s.data) ∧ ∃ q, pv.2 = J.s q := by
  match kvs with
  | [] => simp [leafObj]
  | (k, v) :: rest =>
    have hparts : goodKey k = true ∧ goodV v = true ∧ goodKVs rest = true := by
      simpa [goodKVs, Bool.and_eq_true, and_assoc] using hg
    have hled : objLedV v = true ∧ objLedKVs rest = true := by
      simpa [objLedKVs, Bool.and_eq_true] using ho
    intro pv hm
    rw [leafObj, List.mem_append] at hm
    rcases hm with hm | hm
    · rcases List.mem_map.1 hm with ⟨qv, hqv, rfl⟩
      have hq := leafVal_good v hparts.2.1 hled.1 qv hqv
      refine ⟨?_, hq.2⟩
      intro s hs
      rcases List.mem_cons.1 hs with rfl | hs
      · exact (goodKey_iff s).1 hparts.1
      · exact hq.1 s hs
    · exact leafObj_good rest hparts.2.2 hled.2 pv hm

/-- List-level version of `leafVal_good`. -/
theorem leafArr_good (i : Nat) (es : List J) (hg : goodEs es = true)
    (ho : objLedEs es = true) :
    ∀ pv ∈ leafArr i es, (∀ s ∈ pv.1, s ≠ "" ∧ '_' ∉ s.data) ∧ ∃ q, pv.2 = J.s q := by
  match es with
  | [] => simp [leafArr]
  | e :: rest =>
    have hparts : goodV e = true ∧ goodEs rest = true := by
      simpa [goodEs, Bool.and_eq_true] using hg
    have hled : objLedV e = true ∧ objLedEs rest = true := by
      simpa [objLedEs, Bool.and_eq_true] using ho
    intro pv hm
    rw [leafArr, List.mem_append] at hm
    rcases hm with hm | hm
    · rcases List.mem_map.1 hm with ⟨qv, hqv, rfl⟩
      have hq := leafVal_good e hparts.1 hled.1 qv hqv
      refine ⟨?_, hq.2⟩
      intro s hs
      rcases List.mem_cons.1 hs with rfl | hs
      · exact natStr_good i
      · exact hq.1 s hs
    · exact leafArr_good (i + 1) rest hparts.2 hled.2 pv hm
end

/-- Every path produced by `leafObj` starts with a mapping key, hence is
nonempty. -/
theorem leafObj_path_ne_nil (kvs : List (String × J)) :
    ∀ pv ∈ leafObj kvs, pv.1 ≠ [] := by
  match kvs with
  | [] => simp [leafObj]
  | (k, v) :: rest =>
    intro pv hm
    rw [leafObj, List.mem_append] at hm
    rcases hm with hm | hm
    · rcases List.mem_map.1 hm with ⟨qv, _, rfl⟩
      simp
    · exact leafObj_path_ne_nil rest pv hm

/-- Claim C9 as amended: for every nested document with no scalar-only lists
whose mapping keys are nonempty and separator-free, every leaf scalar value
is reachable in the flattened mapping under its composed key path, and
re-nesting by splitting keys on the separator reconstructs the original
leaf set exactly. -/
theorem flatten_roundTrip (d : List (String × J))
    (hobj : objLedKVs d = true) (hkeys : goodKVs d = true) :
    (∀ pv ∈ leafObj d, (composedKey pv.1, pv.2) ∈ flatten_json d ∧ ∃ q, pv.2 = J.s q) ∧
      renest (flatten_json d) = leafObj d := by
  have hflat : flatten_json d = (leafObj d).map (fun pv => (composedKey pv.1, pv.2)) :=
    flatObj_eq ("") d hkeys
  constructor
  · intro pv hm
    refine ⟨?_, (leafObj_good d hkeys hobj pv hm).2⟩
    rw [hflat]
    exact List.mem_map_of_mem _ hm
  · rw [hflat]
    unfold renest
    rw [List.map_map]
    have hid : ∀ pv ∈ leafObj d,
        ((fun kv : String × J => (splitKey kv.1, kv.2)) ∘
          (fun pv : List String × J => (composedKey pv.1, pv.2))) pv = pv := by
      intro pv hm
      rcases hp : pv.1 with _ | ⟨k, p⟩
      · exact absurd hp (leafObj_path_ne_nil d pv hm)
      · have hgood := (leafObj_good d hkeys hobj pv hm).1
        rw [hp] at hgood
        have hk := hgood k (List.mem_cons_self k p)
        have hps : ∀ s ∈ p, s ≠ "" ∧ '_' ∉ s.data :=
          fun s hs => hgood s (List.mem_cons_of_mem k hs)
        have hcomp : composedKey (k :: p) = extendKey k p := by
          simp [composedKey, extendKey, joinK]
        simp only [Function.comp_apply]
        rw [hp, hcomp, splitKey_extendKey p k hk hps, ← hp]
    rw [List.map_congr_left hid]
    simp

/-- Counterexample to C9 as stated: a document with no scalar-only lists
whose key `b_c` contains the separator; splitting the composed key
`a_b_c` yields the path `a.b.c`, not the original `a.b_c`, so re-nesting
does not reconstruct the leaf set. -/
theorem flatten_roundTrip_counterexample :
    objLedKVs docSepKey = true ∧ renest (flatten_json docSepKey) ≠ leafObj docSepKey := by
  constructor
  · rfl
  · intro h
    have h1 : renest (flatten_json docSepKey) = [(["a", "b", "c"], J.s 1)] := rfl
    have h2 : leafObj docSepKey = [(["a", "b_c"], J.s 1)] := rfl
    rw [h1, h2] at h
    have h3 := congrArg (fun l => l.map Prod.fst) h
    simp at h3

/-- Witness for C9 (amended): on a wellformed document with nested mappings
and a mapping-led list, re-nesting the flattened mapping reconstructs the
leaf set. -/
theorem flatten_roundTrip_witness :
    renest (flatten_json docRound) = leafObj docRound :=
  (flatten_roundTrip docRound (by decide) (by decide)).2

end GdpDashboard
